import Mathlib

/-!
Shallow embedding of `src/useStorage.tsx` and `src/store/persistent_slice.ts`
from the use-storage package: a typed reactive persistence layer gluing a
redux-style shared cache to an asynchronous key-value storage adapter.

Modelling conventions:
* A JS/redux store value for one namespace is `Option α`; `none` is the
  absent sentinel (`undefined`/`null`).
* The redux store's persisted slice is a function `String → Option α`;
  the `setField` reducer overwrites one key.
* A zod schema is a `Validator α`: `safeParse` takes a candidate
  (`none` models `undefined`) and returns `some parsed` on success
  (applying the schema default when the input is `undefined`) or `none`
  on validation failure.  `.parse` is modelled by branching on the same
  function and raising (an `Except.error`) on failure.
* Asynchronous adapter calls are modelled by their outcome, passed in as
  an argument: a `Bool` for write/clear success, and an
  `Except Unit (Option α)` for read (error = promise rejection,
  `ok none` = absent, `ok (some raw)` = present raw value).
* Each embedded operation returns a result structure carrying the
  returned/raised value, the final store, and the observable effects
  (dispatches to the store, adapter calls issued, callback invocations,
  whether the validator ran).
-/

set_option autoImplicit false

namespace UseStorage

variable {α : Type}

/-- The persisted slice of the shared redux store: namespace key to current
substate, `none` when absent. -/
def Store (α : Type) : Type := String → Option α

/-- The `setField` reducer of `persistent_slice.ts`:
`state[action.payload.key] = action.payload.subState`. -/
def setField (key : String) (subState : Option α) (s : Store α) : Store α :=
  fun k => if k = key then subState else s k

/-- A zod schema for one namespace (`storageSchema[file]`): `safeParse none`
models `safeParse(undefined)` and yields the configured default if there is
one, otherwise `none` (failure); `safeParse (some v)` validates `v`. -/
structure Validator (α : Type) where
  safeParse : Option α → Option α

/-- Options accepted by `readStorageFile`, plus the behaviour of the
supplied `onCorrupt` callback (whether it is present and whether its
promise rejects when awaited). -/
structure ReadOptions where
  clearOnCorrupt : Bool
  hasOnCorrupt : Bool
  onCorruptThrows : Bool
  deriving DecidableEq

/-- Observable outcome of one `readStorageFile` call: the settled promise
(`error` = the call itself rejected), the raw values `onCorrupt` was invoked
with, whether `adapter.clearFile` was fired, and whether the validator's
`safeParse` ran. -/
structure ReadResult (α : Type) where
  result : Except Unit (Option α)
  onCorruptCalls : List (Option α)
  clearIssued : Bool
  validated : Bool

/-- Embedding of `readStorageFile` (useStorage.tsx lines 69-97).  The
`await adapter.readFile` sits outside the try block, so a backend rejection
propagates.  Inside the try, `safeParse(data ?? undefined)` runs; on success
the parsed data is returned; on failure `onCorrupt` is awaited (when
supplied) and `null` is returned.  The catch block — reachable only when the
try body throws, e.g. a rejecting `onCorrupt` — fires `adapter.clearFile`
when `clearOnCorrupt` is true, and the function then returns `null`. -/
def readStorageFile (v : Validator α) (opts : ReadOptions)
    (backendRead : Except Unit (Option α)) : ReadResult α :=
  match backendRead with
  | .error e =>
      { result := .error e, onCorruptCalls := [], clearIssued := false,
        validated := false }
  | .ok data =>
      match v.safeParse data with
      | some parsed =>
          { result := .ok (some parsed), onCorruptCalls := [],
            clearIssued := false, validated := true }
      | none =>
          if opts.hasOnCorrupt then
            if opts.onCorruptThrows then
              { result := .ok none, onCorruptCalls := [data],
                clearIssued := opts.clearOnCorrupt, validated := true }
            else
              { result := .ok none, onCorruptCalls := [data],
                clearIssued := false, validated := true }
          else
            { result := .ok none, onCorruptCalls := [],
              clearIssued := false, validated := true }

/-- Observable outcome of one `writeStorageFile` call: `outcome` is
`error ()` when `.parse` threw a schema mismatch, otherwise `ok b` with the
returned boolean; `store` is the final persisted slice; `writeAttempted`
records whether `adapter.writeFile` was called; `dispatches` lists the
values committed to the cache entry, in order. -/
structure WriteResult (α : Type) where
  outcome : Except Unit Bool
  store : Store α
  writeAttempted : Bool
  dispatches : List (Option α)

/-- Embedding of `writeStorageFile` (useStorage.tsx lines 42-59): `.parse(data)` throws
on schema mismatch before anything else; otherwise the previous value is
captured, `data` is optimistically dispatched, the adapter write is awaited,
and on rejection the previous value is dispatched back and `false`
returned. -/
def writeStorageFile (v : Validator α) (file : String) (data : α)
    (s : Store α) (adapterWriteOk : Bool) : WriteResult α :=
  match v.safeParse (some data) with
  | none =>
      { outcome := .error (), store := s, writeAttempted := false,
        dispatches := [] }
  | some _ =>
      let previousState := s file
      let s1 := setField file (some data) s
      if adapterWriteOk then
        { outcome := .ok true, store := s1, writeAttempted := true,
          dispatches := [some data] }
      else
        { outcome := .ok false, store := setField file previousState s1,
          writeAttempted := true, dispatches := [some data, previousState] }

/-- The hook's `write` member (useStorage.tsx lines 201-202) merely awaits
`writeStorageFile`, so a thrown schema mismatch propagates unchanged. -/
def handleWrite (v : Validator α) (file : String) (data : α)
    (s : Store α) (adapterWriteOk : Bool) : WriteResult α :=
  writeStorageFile v file data s adapterWriteOk

/-- Observable outcome of one `clearStorageFile` call. -/
structure ClearResult (α : Type) where
  returned : Bool
  store : Store α
  dispatches : List (Option α)

/-- Embedding of `clearStorageFile` (useStorage.tsx lines 15-33): captures the previous
value, dispatches `undefined` for the key, awaits `adapter.clearFile`; on
rejection dispatches the previous value back and returns `false`. -/
def clearStorageFile (file : String) (s : Store α) (adapterClearOk : Bool) :
    ClearResult α :=
  let previousState := s file
  let s1 := setField file none s
  if adapterClearOk then
    { returned := true, store := s1, dispatches := [none] }
  else
    { returned := false, store := setField file previousState s1,
      dispatches := [none, previousState] }

/-- The module-level flags of useStorage.tsx lines 99-100 (`STATE_READ`,
`STATE_LOCKED`) together with a count of storage reads issued. -/
structure LoadFlags where
  stateRead : Bool
  stateLocked : Bool
  readsIssued : Nat
  deriving DecidableEq

/-- Fresh process: `STATE_READ = false`, `STATE_LOCKED = false`, no read
issued yet. -/
def initFlags : LoadFlags :=
  { stateRead := false, stateLocked := false, readsIssued := 0 }

/-- The synchronous part of the mount effect (useStorage.tsx lines
115-139), restricted to its interaction with the module flags and the
adapter: when neither flag is set, `STATE_LOCKED` is set synchronously and
the asynchronous `readStorageFile` (hence one adapter read) is started;
otherwise the effect only reads the store snapshot and touches neither the
flags nor the adapter.  `STATE_READ` is only set in the read's continuation,
which has not run while the read is still unresolved. -/
def mountConsumer (g : LoadFlags) : LoadFlags :=
  if !g.stateRead && !g.stateLocked then
    { stateRead := g.stateRead, stateLocked := true,
      readsIssued := g.readsIssued + 1 }
  else g

/-- Mounting `k` consumers in sequence before any read resolves. -/
def mountMany : Nat → LoadFlags → LoadFlags
  | 0, g => g
  | k + 1, g => mountMany k (mountConsumer g)

/-- A handle's react-local state: its `initialized` flag and `state`. -/
structure HandleState (α : Type) where
  initialized : Bool
  hstate : Option α
  deriving DecidableEq

/-- The store subscription listener (useStorage.tsx lines 141-157): it
returns immediately while `STATE_READ` is false; otherwise, when the
(reference-inequality) guard `value !== state` holds, it sets
`initialized` and assigns the selected substate. -/
def subscribeListener (stateRead : Bool) (notSame : Bool) (s : Store α)
    (file : String) (h : HandleState α) : HandleState α :=
  if !stateRead then h
  else if notSame then { initialized := true, hstate := s file }
  else h

/-- A JS object value for merge claims: an association list of fields,
later entries overriding earlier ones (spread semantics). -/
abbrev Obj : Type := List (String × Nat)

/-- Field lookup on an object; the last binding of a key wins, matching the
JS spread/assignment order. -/
def objGet : Obj → String → Option Nat
  | [], _ => none
  | (k, v) :: rest, key =>
      match objGet rest key with
      | some x => some x
      | none => if k = key then some v else none

/-- Spread `{...a, ...b}`: fields of `b` override fields of `a`. -/
def spreadObjs (a b : Obj) : Obj := a ++ b

/-- The hook merge's inner `getStateOrDefault` (useStorage.tsx lines
211-220): the current local state when non-null, else
`safeParse(undefined)`'s data on success, else `undefined`. -/
def getStateOrDefault (v : Validator Obj) (hstate : Option Obj) :
    Option Obj :=
  match hstate with
  | none => v.safeParse none
  | some st => some st

/-- The base object actually spread by merge: `getStateOrDefault()` with
`undefined` spreading to no fields at all. -/
def baseOf (v : Validator Obj) (hstate : Option Obj) : Obj :=
  match getStateOrDefault v hstate with
  | some b => b
  | none => []

/-- Observable outcome of one handle-level `merge` call: `outcome` is
`none` after the early `return` on a nullish argument, otherwise `some` of
the inner `writeStorageFile` outcome; `validated` records whether any
`safeParse` ran during the call. -/
structure MergeResult where
  outcome : Option (Except Unit Bool)
  store : Store Obj
  writeAttempted : Bool
  validated : Bool

/-- The hook's `merge` member (useStorage.tsx lines 208-226): a nullish
`updatedFields` returns immediately; otherwise the partial fields are
spread over `getStateOrDefault()` and the result passed to a full
`writeStorageFile`. -/
def handleMerge (v : Validator Obj) (file : String) (hstate : Option Obj)
    (updatedFields : Option Obj) (s : Store Obj) (adapterWriteOk : Bool) :
    MergeResult :=
  match updatedFields with
  | none =>
      { outcome := none, store := s, writeAttempted := false,
        validated := false }
  | some upd =>
      let w := writeStorageFile v file (spreadObjs (baseOf v hstate) upd) s
        adapterWriteOk
      { outcome := some w.outcome, store := w.store,
        writeAttempted := w.writeAttempted, validated := true }

/-- Concrete validator with no default: accepts any present value
unchanged, fails on `undefined`. -/
def vId : Validator Nat := ⟨fun o => o⟩

/-- Concrete validator with default `0`: `safeParse(undefined)` succeeds
with `0`. -/
def vDef0 : Validator Nat :=
  ⟨fun o => match o with | none => some 0 | some x => some x⟩

/-- Concrete validator rejecting every candidate. -/
def vRej : Validator Nat := ⟨fun _ => none⟩

/-- Concrete object validator accepting any present value, no default. -/
def vObjId : Validator Obj := ⟨fun o => o⟩

/-- An empty persisted slice. -/
def emptyStoreNat : Store Nat := fun _ => none

/-- An empty persisted slice over objects. -/
def emptyStoreObj : Store Obj := fun _ => none

/-- Options: `clearOnCorrupt` off, `onCorrupt` supplied and resolving. -/
def optsCb : ReadOptions :=
  { clearOnCorrupt := false, hasOnCorrupt := true, onCorruptThrows := false }

/-- Options: `clearOnCorrupt` on, `onCorrupt` supplied and resolving. -/
def optsClear : ReadOptions :=
  { clearOnCorrupt := true, hasOnCorrupt := true, onCorruptThrows := false }

theorem mountMany_locked (j : Nat) (g : LoadFlags)
    (hg : g.stateLocked = true) : mountMany j g = g := by
  induction j generalizing g with
  | zero => rfl
  | succ n ih =>
      have hm : mountConsumer g = g := by
        simp [mountConsumer, hg]
      rw [mountMany, hm]
      exact ih g hg

theorem objGet_append (a b : Obj) (key : String) :
    objGet (a ++ b) key =
      match objGet b key with
      | some x => some x
      | none => objGet a key := by
  induction a with
  | nil =>
      show objGet b key = _
      cases objGet b key <;> rfl
  | cons hd tl ih =>
      obtain ⟨k, v⟩ := hd
      show (match objGet (tl ++ b) key with
            | some x => some x
            | none => if k = key then some v else none) = _
      rw [ih]
      simp only [objGet]
      cases objGet b key <;> cases objGet tl key <;> rfl

/-- Flags right after the first consumer mounted: the lock is set and one
read has been issued. -/
def lockedFlags : LoadFlags :=
  { stateRead := false, stateLocked := true, readsIssued := 1 }

/-- C1: before any read resolves, mounting any positive number of consumers
issues exactly one adapter read; the very first mount sets the in-flight
lock synchronously, and any consumer mounting while the lock is set issues
no further read. -/
theorem singleton_initial_load (k : Nat) (g : LoadFlags) (hk : 1 ≤ k)
    (hg : g.stateLocked = true) :
    (mountMany k initFlags).readsIssued = 1 ∧
    (mountConsumer initFlags).stateLocked = true ∧
    (mountConsumer g).readsIssued = g.readsIssued := by
  refine ⟨?_, by decide, ?_⟩
  · obtain ⟨j, rfl⟩ : ∃ j, k = j + 1 := ⟨k - 1, by omega⟩
    have h1 : mountConsumer initFlags = lockedFlags := by decide
    rw [mountMany, h1, mountMany_locked j _ rfl]
    rfl
  · simp [mountConsumer, hg]

/-- C1 witness: three consumers mounting before resolution issue exactly
one read. -/
theorem singleton_initial_load_witness :
    (1 : Nat) ≤ 3 ∧ lockedFlags.stateLocked = true ∧
    ((mountMany 3 initFlags).readsIssued = 1 ∧
      (mountConsumer initFlags).stateLocked = true ∧
      (mountConsumer lockedFlags).readsIssued = lockedFlags.readsIssued) :=
  ⟨by decide, by decide,
    singleton_initial_load 3 lockedFlags (by decide) (by decide)⟩

/-- C2: for a valid value, the write optimistically commits it; if the
adapter write fails, the entry is restored to exactly the previous value
and `false` is returned; if it succeeds, `true` is returned and the entry
keeps the new value. -/
theorem write_rollback_invariant (v : Validator α) (file : String)
    (d w : α) (s : Store α) (hval : v.safeParse (some d) = some w) :
    (writeStorageFile v file d s false).outcome = Except.ok false ∧
    (writeStorageFile v file d s false).store file = s file ∧
    (writeStorageFile v file d s false).dispatches = [some d, s file] ∧
    (writeStorageFile v file d s true).outcome = Except.ok true ∧
    (writeStorageFile v file d s true).store file = some d ∧
    (writeStorageFile v file d s true).dispatches = [some d] := by
  simp [writeStorageFile, hval, setField]

/-- C2 witness: writing 5 over an empty entry with the identity schema. -/
theorem write_rollback_invariant_witness :
    (writeStorageFile vId "a" 5 emptyStoreNat false).outcome =
      Except.ok false ∧
    (writeStorageFile vId "a" 5 emptyStoreNat false).store "a" =
      emptyStoreNat "a" ∧
    (writeStorageFile vId "a" 5 emptyStoreNat false).dispatches =
      [some 5, emptyStoreNat "a"] ∧
    (writeStorageFile vId "a" 5 emptyStoreNat true).outcome =
      Except.ok true ∧
    (writeStorageFile vId "a" 5 emptyStoreNat true).store "a" = some 5 ∧
    (writeStorageFile vId "a" 5 emptyStoreNat true).dispatches = [some 5] :=
  write_rollback_invariant vId "a" 5 5 emptyStoreNat rfl

/-- C3 counterexample: with an absent backend value and a schema that has
no default, the validator IS invoked and the corruption callback IS
invoked (with the absent raw value), contradicting the claim's
"without invoking the validator and without invoking the corruption
callback". -/
theorem absent_invokes_validation_counterexample :
    (readStorageFile vId optsCb (Except.ok none)).validated = true ∧
    (readStorageFile vId optsCb (Except.ok none)).onCorruptCalls =
      [none] :=
  ⟨rfl, rfl⟩

/-- C3 amended: an absent backend value is always passed (as `undefined`)
through the validator; when the schema yields a default the call returns
that default without invoking the corruption callback, and otherwise it
invokes the supplied `onCorrupt` with the absent raw value and returns
`null`. -/
theorem absent_read_amended (v : Validator α) (opts : ReadOptions) :
    (readStorageFile v opts (Except.ok none)).validated = true ∧
    (∀ d : α, v.safeParse none = some d →
      readStorageFile v opts (Except.ok none) =
        { result := Except.ok (some d), onCorruptCalls := [],
          clearIssued := false, validated := true }) ∧
    (v.safeParse none = none →
      (readStorageFile v opts (Except.ok none)).result = Except.ok none ∧
      (readStorageFile v opts (Except.ok none)).onCorruptCalls =
        (if opts.hasOnCorrupt then [none] else [])) := by
  refine ⟨?_, ?_, ?_⟩
  · cases hv : v.safeParse none with
    | none =>
        simp only [readStorageFile, hv]
        split_ifs <;> rfl
    | some d =>
        simp only [readStorageFile, hv]
  · intro d hd
    simp only [readStorageFile, hd]
  · intro hd
    simp only [readStorageFile, hd]
    split_ifs <;> exact ⟨rfl, rfl⟩

/-- C3 amended witness: with a default of 0 configured, the absent value
reads back as the default with no corruption callback. -/
theorem absent_read_amended_witness :
    readStorageFile vDef0 optsCb (Except.ok none) =
      { result := Except.ok (some 0), onCorruptCalls := [],
        clearIssued := false, validated := true } :=
  (absent_read_amended vDef0 optsCb).2.1 0 rfl

/-- C4 counterexample: when the adapter read rejects, the call does not
return `null` — the rejection propagates to the caller. -/
theorem read_reject_counterexample :
    (readStorageFile vDef0 optsCb (Except.error ())).result ≠
      Except.ok none ∧
    (readStorageFile vDef0 optsCb (Except.error ())).result =
      Except.error () :=
  ⟨fun h => Except.noConfusion h, rfl⟩

/-- C4 amended: an adapter read rejection propagates to the caller (the
`await` sits outside the try block); no validation, corruption callback or
clear happens on that path. -/
theorem read_reject_propagates (v : Validator α) (opts : ReadOptions) :
    readStorageFile v opts (Except.error ()) =
      { result := Except.error (), onCorruptCalls := [],
        clearIssued := false, validated := false } :=
  rfl

/-- C5 counterexample: for a value failing validation, the handle-level
`write` does not return `false` — it propagates the thrown schema
mismatch. -/
theorem handle_write_raises_counterexample :
    (handleWrite vRej "a" 0 emptyStoreNat true).outcome ≠
      Except.ok false ∧
    (handleWrite vRej "a" 0 emptyStoreNat true).outcome =
      Except.error () :=
  ⟨fun h => Except.noConfusion h, rfl⟩

/-- C5 amended: for a candidate failing validation, both the direct engine
write and the handle-level write raise the schema mismatch synchronously,
before any I/O and without touching cache or backend; the handle-level
write does not downgrade the failure to a boolean. -/
theorem schema_mismatch_raises (v : Validator α) (file : String) (d : α)
    (s : Store α) (adapterWriteOk : Bool)
    (hval : v.safeParse (some d) = none) :
    writeStorageFile v file d s adapterWriteOk =
      { outcome := Except.error (), store := s, writeAttempted := false,
        dispatches := [] } ∧
    handleWrite v file d s adapterWriteOk =
      { outcome := Except.error (), store := s, writeAttempted := false,
        dispatches := [] } := by
  constructor <;> simp [handleWrite, writeStorageFile, hval]

/-- C5 amended witness: the always-rejecting schema makes both writes
raise without touching the store. -/
theorem schema_mismatch_raises_witness :
    writeStorageFile vRej "a" 0 emptyStoreNat true =
      { outcome := Except.error (), store := emptyStoreNat,
        writeAttempted := false, dispatches := [] } ∧
    handleWrite vRej "a" 0 emptyStoreNat true =
      { outcome := Except.error (), store := emptyStoreNat,
        writeAttempted := false, dispatches := [] } :=
  schema_mismatch_raises vRej "a" 0 emptyStoreNat true rfl

/-- C6: a non-null merge shallow-merges the partial fields over the
current value (or the default / empty base when absent) and performs a
full write; on success the cache entry holds the merged object, whose
fields are the partial update's where given and the base's elsewhere. -/
theorem merge_semantics (v : Validator Obj) (file : String)
    (hstate : Option Obj) (upd : Obj) (s : Store Obj) (w : Obj)
    (hval : v.safeParse (some (spreadObjs (baseOf v hstate) upd)) = some w) :
    (handleMerge v file hstate (some upd) s true).writeAttempted = true ∧
    (handleMerge v file hstate (some upd) s true).outcome =
      some (Except.ok true) ∧
    (handleMerge v file hstate (some upd) s true).store file =
      some (spreadObjs (baseOf v hstate) upd) ∧
    ∀ key : String,
      objGet (spreadObjs (baseOf v hstate) upd) key =
        match objGet upd key with
        | some x => some x
        | none => objGet (baseOf v hstate) key := by
  refine ⟨?_, ?_, ?_, fun key => objGet_append _ _ key⟩ <;>
    simp [handleMerge, writeStorageFile, hval, setField]

/-- C6 witness: merging `{y: 9}` into prior `{x: 1, y: 2}` writes the
merged object and leaves `x` untouched while replacing `y`. -/
theorem merge_semantics_witness :
    (handleMerge vObjId "a" (some [("x", 1), ("y", 2)])
      (some [("y", 9)]) emptyStoreObj true).outcome =
        some (Except.ok true) ∧
    (handleMerge vObjId "a" (some [("x", 1), ("y", 2)])
      (some [("y", 9)]) emptyStoreObj true).store "a" =
        some (spreadObjs (baseOf vObjId (some [("x", 1), ("y", 2)]))
          [("y", 9)]) ∧
    objGet (spreadObjs (baseOf vObjId (some [("x", 1), ("y", 2)]))
      [("y", 9)]) "x" = some 1 ∧
    objGet (spreadObjs (baseOf vObjId (some [("x", 1), ("y", 2)]))
      [("y", 9)]) "y" = some 9 := by
  have h := merge_semantics vObjId "a" (some [("x", 1), ("y", 2)])
    [("y", 9)] emptyStoreObj
    (spreadObjs (baseOf vObjId (some [("x", 1), ("y", 2)])) [("y", 9)]) rfl
  exact ⟨h.2.1, h.2.2.1, by decide, by decide⟩

/-- C7: clear captures the previous value, optimistically dispatches the
absent sentinel (notifying subscribers), and on adapter failure dispatches
the captured previous value back and returns `false`; on success it
returns `true` with the entry absent. -/
theorem clear_optimistic_rollback (file : String) (s : Store α) :
    (clearStorageFile file s true).returned = true ∧
    (clearStorageFile file s true).store file = none ∧
    (clearStorageFile file s true).dispatches = [none] ∧
    (clearStorageFile file s false).returned = false ∧
    (clearStorageFile file s false).store file = s file ∧
    (clearStorageFile file s false).dispatches = [none, s file] := by
  simp [clearStorageFile, setField]

/-- C8: at the failing input — a present raw value that fails validation,
`clearOnCorrupt = true`, a resolving `onCorrupt` supplied — the code
invokes `onCorrupt` with the raw value and returns `null`, but never issues
the adapter clear that its own documentation of `clearOnCorrupt`
promises (the clear sits in a catch block that a plain validation failure
cannot reach). -/
theorem clearOnCorrupt_never_clears :
    readStorageFile vRej optsClear (Except.ok (some 7)) =
      { result := Except.ok none, onCorruptCalls := [some 7],
        clearIssued := false, validated := true } :=
  rfl

/-- C9: while `STATE_READ` is false, a store notification leaves a
subscribed handle's local state and `initialized` flag exactly unchanged,
whatever the cache now holds. -/
theorem listener_noop_before_initial_load (notSame : Bool) (s : Store α)
    (file : String) (h : HandleState α) :
    subscribeListener false notSame s file h = h :=
  rfl

/-- C10: a nullish `updatedFields` makes merge return immediately: no
validation runs, no adapter write is attempted, and the store is returned
exactly unchanged. -/
theorem merge_null_noop (v : Validator Obj) (file : String)
    (hstate : Option Obj) (s : Store Obj) (adapterWriteOk : Bool) :
    handleMerge v file hstate none s adapterWriteOk =
      { outcome := none, store := s, writeAttempted := false,
        validated := false } :=
  rfl

end UseStorage
